import Mathlib

/-!
Verification of the WhatsApp instance session manager (`WhatsAppManager` in
`src/lib/whatsapp.ts`): address normalization (`formatNumber`), the
per-instance lifecycle state machine driven by protocol-client notifications
(`setupEventHandlers`), persistence through the repository interface
(`updateInstanceStatus` / direct `prisma.instance.update`), and the command
facade (`connect`, `disconnect`, `logout`, `deleteInstance`, `sendText`, ...).

The protocol client (`whatsapp-web.js`) and the filesystem are external
collaborators: their calls are recorded as an effect trace (`ClientCall`),
and their possible failures are passed in as boolean parameters
(`logoutOk`, `destroyOk`, `dbOk`), mirroring the `await`ed calls that can
reject in the source.
-/

namespace Whatsapp

/-- JS `number.replace(/\D/g, '')`: remove every non-digit character. -/
def stripNonDigits (s : String) : String :=
  String.mk (s.data.filter Char.isDigit)

/-- JS `String.prototype.includes` specialised to a one-character needle. -/
def strContains (s : String) (c : Char) : Bool :=
  s.data.contains c

/-- `WhatsAppManager.formatNumber` (src/lib/whatsapp.ts lines 1189-1203):
first strips all non-numeric characters, then tests the *cleaned* value for
a domain suffix and the group separator. -/
def formatNumber (number : String) : String :=
  let cleaned := stripNonDigits number
  if !(strContains cleaned '@') then
    if strContains cleaned '-' then
      cleaned ++ "@g.us"
    else
      cleaned ++ "@c.us"
  else
    cleaned

/-- In-memory lifecycle status of a `WAInstance`
(src/lib/whatsapp.ts line 444). -/
inductive Status where
  | disconnected
  | connecting
  | connected
  | qr
deriving DecidableEq, Repr

/-- Persisted status values passed to the repository
(`'DISCONNECTED' | 'CONNECTING' | 'CONNECTED'`, line 625). -/
inductive DbStatus where
  | DISCONNECTED
  | CONNECTING
  | CONNECTED
deriving DecidableEq, Repr

/-- The `WAInstance` record (lines 441-447).  The opaque protocol client
of an instance is identified by the instance id (one client per handle). -/
structure WAInstance where
  id : String
  status : Status
  qrCode : Option String
  qrCodeBase64 : Option String
deriving DecidableEq, Repr

/-- Calls issued to the external protocol client, recorded as a trace. -/
inductive ClientCall where
  | initSession (id : String)
  | destroy (id : String)
  | clientLogout (id : String)
  | sendMessage (id chatId body : String)
deriving DecidableEq, Repr

/-- Events the manager publishes on its event bus (`this.emit`). -/
inductive Emitted where
  | qrE (id payload : String)
  | readyE (id : String)
  | authenticatedE (id : String)
  | authFailureE (id : String)
  | disconnectedE (id : String)
deriving DecidableEq, Repr

/-- Raw protocol-client notifications handled in `setupEventHandlers`
(lifecycle subset; the pure message fan-out handlers carry no state). -/
inductive Notif where
  | qrN (payload : String)
  | readyN (waNumber waName : String)
  | authenticatedN
  | authFailureN (msg : String)
  | disconnectedN (reason : String)
deriving DecidableEq, Repr

/-- State owned by the `WhatsAppManager` process: the in-memory registry
(`this.instances`), the set of on-disk session directories under
`env.waSessionPath`, and the repository rows touched by the manager
(status column, account-identity columns), plus the error log. -/
structure ManagerState where
  instances : List (String × WAInstance)
  sessionDirs : List String
  dbStatus : List (String × DbStatus)
  dbIdentity : List (String × String × String)
  errorLog : List String
deriving DecidableEq, Repr

/-- `this.instances.get(id)`. -/
def lookupInst (m : ManagerState) (id : String) : Option WAInstance :=
  (m.instances.find? (fun p => p.1 == id)).map Prod.snd

/-- `this.instances.set(id, inst)` (replace-on-collision map semantics). -/
def setInst (m : ManagerState) (id : String) (i : WAInstance) : ManagerState :=
  { m with instances := (id, i) :: m.instances.filter (fun p => p.1 != id) }

/-- `this.instances.delete(id)`. -/
def removeInst (m : ManagerState) (id : String) : ManagerState :=
  { m with instances := m.instances.filter (fun p => p.1 != id) }

/-- Last persisted status row for an instance id. -/
def dbStatusOf (m : ManagerState) (id : String) : Option DbStatus :=
  (m.dbStatus.find? (fun p => p.1 == id)).map Prod.snd

/-- Model of the external `QRCode.toDataURL` rendering (opaque,
deterministic; only `some`-ness matters to the claims). -/
def toDataURL (s : String) : String :=
  "data:image/png;base64," ++ s

/-- `WhatsAppManager.updateInstanceStatus` (lines 625-634): the repository
update is wrapped in try/catch; on failure (`dbOk = false`) the error is
logged and nothing is thrown. -/
def updateInstanceStatus (dbOk : Bool) (m : ManagerState) (id : String)
    (st : DbStatus) : ManagerState :=
  if dbOk then
    { m with dbStatus := (id, st) :: m.dbStatus.filter (fun p => p.1 != id) }
  else
    { m with errorLog := ("Failed to update instance status " ++ id) :: m.errorLog }

/-- One notification handler step (`setupEventHandlers`, lines 516-606),
acting on the registered instance record.  Returns the new manager state,
the events emitted, and whether the async handler ran to completion
(`false` = an uncaught rejection propagated out of the handler). -/
def handleNotif (dbOk : Bool) (m : ManagerState) (id : String) (n : Notif) :
    ManagerState × List Emitted × Bool :=
  match lookupInst m id with
  | none => (m, [], true)
  | some i =>
    match n with
    | .qrN p =>
        let i' : WAInstance :=
          { i with status := .qr, qrCode := some p,
                   qrCodeBase64 := some (toDataURL p) }
        let m1 := setInst m id i'
        (updateInstanceStatus dbOk m1 id .CONNECTING, [.qrE id p], true)
    | .readyN num name =>
        let i' : WAInstance :=
          { i with status := .connected, qrCode := none, qrCodeBase64 := none }
        let m1 := setInst m id i'
        if dbOk then
          let m2 := { m1 with
            dbStatus := (id, DbStatus.CONNECTED) ::
              m1.dbStatus.filter (fun p => p.1 != id),
            dbIdentity := (id, num, name) ::
              m1.dbIdentity.filter (fun p => p.1 != id) }
          (m2, [.readyE id], true)
        else
          (m1, [], false)
    | .authenticatedN => (m, [.authenticatedE id], true)
    | .authFailureN _ =>
        let i' : WAInstance := { i with status := .disconnected }
        let m1 := setInst m id i'
        (updateInstanceStatus dbOk m1 id .DISCONNECTED, [.authFailureE id], true)
    | .disconnectedN _ =>
        let i' : WAInstance := { i with status := .disconnected }
        let m1 := setInst m id i'
        (updateInstanceStatus dbOk m1 id .DISCONNECTED, [.disconnectedE id], true)

/-- Run a sequence of notifications for one instance. -/
def runNotifs (dbOk : Bool) (m : ManagerState) (id : String) :
    List Notif → ManagerState
  | [] => m
  | n :: ns => runNotifs dbOk (handleNotif dbOk m id n).1 id ns

/-- `WhatsAppManager.createInstance` (lines 478-514): refuses an id already
present, otherwise registers a fresh handle with status `disconnected`. -/
def createInstance (m : ManagerState) (id : String) :
    Except String (ManagerState × WAInstance) :=
  if (lookupInst m id).isSome then
    .error ("Instance " ++ id ++ " already exists")
  else
    let i : WAInstance :=
      { id := id, status := .disconnected, qrCode := none, qrCodeBase64 := none }
    .ok (setInst m id i, i)

/-- `WhatsAppManager.connect` (lines 636-651).  Returns the new state, the
returned handle, and the protocol-client calls issued. -/
def connect (m : ManagerState) (id : String) :
    Except String (ManagerState × WAInstance × List ClientCall) :=
  match lookupInst m id with
  | some i =>
      if i.status = .connected then
        .ok (m, i, [])
      else
        let i' : WAInstance := { i with status := .connecting }
        .ok (setInst m id i', i', [.initSession id])
  | none =>
      match createInstance m id with
      | .error e => .error e
      | .ok (m1, i) =>
          let i' : WAInstance := { i with status := .connecting }
          .ok (setInst m1 id i', i', [.initSession id])

/-- `WhatsAppManager.disconnect` (lines 653-663).  `destroyOk = false`
models `client.destroy()` rejecting, in which case the error propagates
before any local mutation.  The post-state is returned in both cases. -/
def disconnect (destroyOk dbOk : Bool) (m : ManagerState) (id : String) :
    ManagerState × Except String (List ClientCall) :=
  match lookupInst m id with
  | none => (m, .error ("Instance " ++ id ++ " not found"))
  | some i =>
      if destroyOk then
        let i' : WAInstance := { i with status := .disconnected }
        let m1 := setInst m id i'
        (updateInstanceStatus dbOk m1 id .DISCONNECTED, .ok [.destroy id])
      else
        (m, .error "destroy failed")

/-- `WhatsAppManager.logout` (lines 665-683).  `logoutOk`/`destroyOk` model
the two awaited teardown calls; neither is wrapped in try/catch, so a
rejection propagates before the session directory, registry entry and
persisted status are touched. -/
def logoutCmd (logoutOk destroyOk dbOk : Bool) (m : ManagerState)
    (id : String) : ManagerState × Except String (List ClientCall) :=
  match lookupInst m id with
  | none => (m, .error ("Instance " ++ id ++ " not found"))
  | some i =>
      if !logoutOk then
        (m, .error "logout failed")
      else if !destroyOk then
        (m, .error "destroy failed")
      else
        let i' : WAInstance := { i with status := .disconnected }
        let m1 := setInst m id i'
        let m2 := { m1 with sessionDirs := m1.sessionDirs.filter (fun s => s != id) }
        let m3 := removeInst m2 id
        (updateInstanceStatus dbOk m3 id .DISCONNECTED,
         .ok [.clientLogout id, .destroy id])

/-- `WhatsAppManager.deleteInstance` (lines 685-703): `destroy` is attempted
only for a registered handle and its errors are swallowed (`destroyOk` never
affects the outcome); the session directory and registry entry are removed
regardless, and no status is persisted. -/
def deleteInstance (_destroyOk : Bool) (m : ManagerState) (id : String) :
    ManagerState × List ClientCall :=
  let calls : List ClientCall :=
    match lookupInst m id with
    | some _ => [.destroy id]
    | none => []
  let m1 := { m with sessionDirs := m.sessionDirs.filter (fun s => s != id) }
  (removeInst m1 id, calls)

/-- `WhatsAppManager.getClient` (lines 709-711): the client of the
registered handle, whatever its status. -/
def getClient (m : ManagerState) (id : String) : Option String :=
  (lookupInst m id).map (fun i => i.id)

/-- `WhatsAppManager.getStatus` (lines 713-716), `none` = `'not_found'`. -/
def getStatus (m : ManagerState) (id : String) : Option Status :=
  (lookupInst m id).map (fun i => i.status)

/-- `WhatsAppManager.getQRCode` (lines 718-724): the optional QR fields of
the registered handle, `(none, none)` for an unknown id. -/
def getQRCode (m : ManagerState) (id : String) : Option String × Option String :=
  ((lookupInst m id).bind (fun i => i.qrCode),
   (lookupInst m id).bind (fun i => i.qrCodeBase64))

/-- `WhatsAppManager.sendText` (lines 734-741): fails only when `getClient`
returns nothing, otherwise delegates to `client.sendMessage` on the
normalized address. -/
def sendText (m : ManagerState) (id toAddr text : String) :
    Except String (List ClientCall) :=
  match getClient m id with
  | none => .error ("Instance " ++ id ++ " not connected")
  | some c => .ok [.sendMessage c (formatNumber toAddr) text]

/-- The QR-fields half of the claimed invariant: every registered handle in
status `qr` carries both QR fields. -/
def qrInv (m : ManagerState) : Prop :=
  ∀ p ∈ m.instances, p.2.status = .qr →
    p.2.qrCode.isSome = true ∧ p.2.qrCodeBase64.isSome = true

instance (m : ManagerState) : Decidable (qrInv m) := by
  unfold qrInv; infer_instance

/-- A registered but disconnected handle, for concrete evaluations. -/
def instA : WAInstance :=
  { id := "a", status := Status.disconnected, qrCode := none, qrCodeBase64 := none }

/-- Manager state holding `instA` with its session directory on disk. -/
def mA : ManagerState :=
  { instances := [("a", instA)], sessionDirs := ["a"],
    dbStatus := [("a", DbStatus.DISCONNECTED)], dbIdentity := [], errorLog := [] }

/-- A connected handle, for concrete evaluations. -/
def instConn : WAInstance :=
  { id := "a", status := Status.connected, qrCode := none, qrCodeBase64 := none }

/-- Manager state holding the connected `instConn`. -/
def mConn : ManagerState :=
  { instances := [("a", instConn)], sessionDirs := ["a"],
    dbStatus := [("a", DbStatus.CONNECTED)], dbIdentity := [], errorLog := [] }

/-- A handle awaiting a QR scan, both challenge fields populated. -/
def instQr : WAInstance :=
  { id := "a", status := Status.qr, qrCode := some "x",
    qrCodeBase64 := some (toDataURL "x") }

/-- Manager state holding the awaiting-scan `instQr`. -/
def mQr : ManagerState :=
  { instances := [("a", instQr)], sessionDirs := ["a"],
    dbStatus := [("a", DbStatus.CONNECTING)], dbIdentity := [], errorLog := [] }

/-- The cleaned value contains no character that is not a digit. -/
theorem stripNonDigits_contains_false {c : Char} (hc : c.isDigit = false)
    (s : String) : strContains (stripNonDigits s) c = false := by
  have h : c ∉ s.data.filter Char.isDigit := by
    intro hmem
    have := (List.mem_filter.mp hmem).2
    rw [hc] at this
    exact Bool.false_ne_true this
  simpa [strContains, stripNonDigits] using h

/-- Because `'@'` and `'-'` are stripped before they are tested for, every
input normalizes to its digits followed by the individual-contact suffix. -/
theorem formatNumber_eq (s : String) :
    formatNumber s = stripNonDigits s ++ "@c.us" := by
  have h1 := stripNonDigits_contains_false (c := '@') (by decide) s
  have h2 := stripNonDigits_contains_false (c := '-') (by decide) s
  simp [formatNumber, h1, h2]

theorem stripNonDigits_append (s t : String) :
    stripNonDigits (s ++ t) = stripNonDigits s ++ stripNonDigits t := by
  cases s with | mk l =>
  cases t with | mk m =>
  show String.mk ((l ++ m).filter Char.isDigit)
      = String.mk (l.filter Char.isDigit ++ m.filter Char.isDigit)
  rw [List.filter_append]

theorem stripNonDigits_idem (s : String) :
    stripNonDigits (stripNonDigits s) = stripNonDigits s := by
  cases s with | mk l =>
  show String.mk ((l.filter Char.isDigit).filter Char.isDigit)
      = String.mk (l.filter Char.isDigit)
  congr 1
  rw [List.filter_eq_self]
  intro a ha
  exact (List.mem_filter.mp ha).2

/-- C3: the code strips the separator and the domain suffix before testing
for them, so the concrete group-shaped input from the spec gets the
individual suffix, and an input that already carries a domain suffix is not
returned unchanged. -/
theorem formatNumber_group_input_gets_individual_suffix :
    formatNumber "1203630-1234567890" = "12036301234567890@c.us" ∧
    formatNumber "123-456@g.us" = "123456@c.us" := by
  constructor <;> decide

/-- C9: a bare numeric address (no domain suffix, no group separator among
its digits) normalizes to its digits followed by the individual-contact
suffix; in particular `"+55 11 99999-9999"` yields `"5511999999999@c.us"`. -/
theorem formatNumber_bare_number :
    (∀ s : String, strContains s '@' = false →
      strContains (stripNonDigits s) '-' = false →
      formatNumber s = stripNonDigits s ++ "@c.us") ∧
    formatNumber "+55 11 99999-9999" = "5511999999999@c.us" := by
  refine ⟨fun s _ _ => formatNumber_eq s, by decide⟩

/-- C9 witness: the general statement applied at a concrete bare number. -/
theorem formatNumber_bare_number_witness :
    formatNumber "12345" = stripNonDigits "12345" ++ "@c.us" :=
  formatNumber_bare_number.1 "12345" (by decide) (by decide)

/-- C10: address normalization is idempotent. -/
theorem formatNumber_idempotent (s : String) :
    formatNumber (formatNumber s) = formatNumber s := by
  rw [formatNumber_eq s, formatNumber_eq, stripNonDigits_append,
    stripNonDigits_idem]
  have h : stripNonDigits "@c.us" = "" := by decide
  rw [h]
  rw [String.append_empty]

theorem lookupInst_setInst_self (m : ManagerState) (id : String)
    (i : WAInstance) : lookupInst (setInst m id i) id = some i := by
  simp [lookupInst, setInst, List.find?]

theorem instances_setInst (m : ManagerState) (id : String) (i : WAInstance) :
    (setInst m id i).instances = (id, i) :: m.instances.filter (fun p => p.1 != id) :=
  rfl

theorem instances_updateInstanceStatus (dbOk : Bool) (m : ManagerState)
    (id : String) (st : DbStatus) :
    (updateInstanceStatus dbOk m id st).instances = m.instances := by
  unfold updateInstanceStatus
  split <;> rfl

theorem lookupInst_of_instances_eq {m₁ m₂ : ManagerState}
    (h : m₁.instances = m₂.instances) (id : String) :
    lookupInst m₁ id = lookupInst m₂ id := by
  unfold lookupInst
  rw [h]

theorem qrInv_of_instances_eq {m₁ m₂ : ManagerState}
    (h : m₁.instances = m₂.instances) (hm : qrInv m₂) : qrInv m₁ := by
  intro p hp
  rw [h] at hp
  exact hm p hp

theorem qrInv_setInst {m : ManagerState} {id : String} {i : WAInstance}
    (hm : qrInv m)
    (hi : i.status = .qr → i.qrCode.isSome = true ∧ i.qrCodeBase64.isSome = true) :
    qrInv (setInst m id i) := by
  intro p hp hq
  rcases List.mem_cons.mp hp with h | h
  · subst h
    exact hi hq
  · exact hm p (List.mem_of_mem_filter h) hq

theorem errorLog_setInst (m : ManagerState) (id : String) (i : WAInstance) :
    (setInst m id i).errorLog = m.errorLog := rfl

theorem sessionDirs_setInst (m : ManagerState) (id : String) (i : WAInstance) :
    (setInst m id i).sessionDirs = m.sessionDirs := rfl

theorem contains_filter_ne (l : List String) (id : String) :
    (l.filter (fun s => s != id)).contains id = false := by
  have h : id ∉ l.filter (fun s => s != id) := by
    intro hm
    have := (List.mem_filter.mp hm).2
    simp at this
  simp [h]

theorem lookupInst_removeInst (m : ManagerState) (id : String) :
    lookupInst (removeInst m id) id = none := by
  unfold lookupInst removeInst
  have hf : (m.instances.filter (fun p => p.1 != id)).find?
      (fun p => p.1 == id) = none := by
    rw [List.find?_eq_none]
    intro p hp
    have h := (List.mem_filter.mp hp).2
    simp only [bne_iff_ne, ne_eq] at h
    simp [h]
  rw [hf]
  rfl

theorem instances_removeInst_of_absent {m : ManagerState} {id : String}
    (h : lookupInst m id = none) :
    (removeInst m id).instances = m.instances := by
  unfold removeInst
  show m.instances.filter (fun p => p.1 != id) = m.instances
  rw [List.filter_eq_self]
  intro p hp
  have hf : m.instances.find? (fun p => p.1 == id) = none := by
    cases hc : m.instances.find? (fun p => p.1 == id) with
    | none => rfl
    | some q =>
        unfold lookupInst at h
        rw [hc] at h
        simp at h
  have := List.find?_eq_none.mp hf p hp
  simpa using this

/-- Preservation of the QR invariant by a single notification handler. -/
theorem qrInv_handleNotif (dbOk : Bool) (m : ManagerState) (id : String)
    (n : Notif) (hm : qrInv m) : qrInv (handleNotif dbOk m id n).1 := by
  unfold handleNotif
  cases hlk : lookupInst m id with
  | none => exact hm
  | some i =>
    cases n with
    | qrN p =>
        exact qrInv_of_instances_eq
          (instances_updateInstanceStatus ..)
          (qrInv_setInst hm (fun _ => by simp))
    | readyN num name =>
        by_cases hdb : dbOk = true
        · rw [hdb]
          simp only [if_true]
          exact qrInv_of_instances_eq rfl
            (qrInv_setInst hm (fun hq => by simp at hq))
        · rw [Bool.not_eq_true] at hdb
          rw [hdb]
          simp only [Bool.false_eq_true, if_false]
          exact qrInv_setInst hm (fun hq => by simp at hq)
    | authenticatedN => exact hm
    | authFailureN msg =>
        exact qrInv_of_instances_eq
          (instances_updateInstanceStatus ..)
          (qrInv_setInst hm (fun hq => by simp at hq))
    | disconnectedN r =>
        exact qrInv_of_instances_eq
          (instances_updateInstanceStatus ..)
          (qrInv_setInst hm (fun hq => by simp at hq))

/-- Preservation of the QR invariant by every notification sequence. -/
theorem qrInv_runNotifs (dbOk : Bool) (m : ManagerState) (id : String)
    (ns : List Notif) (hm : qrInv m) : qrInv (runNotifs dbOk m id ns) := by
  induction ns generalizing m with
  | nil => exact hm
  | cons n ns ih =>
      exact ih _ (qrInv_handleNotif dbOk m id n hm)

theorem lookupInst_updateInstanceStatus (dbOk : Bool) (m : ManagerState)
    (id id2 : String) (st : DbStatus) :
    lookupInst (updateInstanceStatus dbOk m id st) id2 = lookupInst m id2 :=
  lookupInst_of_instances_eq (instances_updateInstanceStatus dbOk m id st) id2

theorem sessionDirs_updateInstanceStatus (dbOk : Bool) (m : ManagerState)
    (id : String) (st : DbStatus) :
    (updateInstanceStatus dbOk m id st).sessionDirs = m.sessionDirs := by
  unfold updateInstanceStatus
  split <;> rfl

theorem dbStatusOf_updateInstanceStatus_self (m : ManagerState) (id : String)
    (st : DbStatus) :
    dbStatusOf (updateInstanceStatus true m id st) id = some st := by
  simp [dbStatusOf, updateInstanceStatus, List.find?]

/-- `connect` on an unregistered id goes through first-time creation:
a fresh handle in status `connecting` and one `initialize` call. -/
theorem connect_fresh {m : ManagerState} {id : String}
    (h : lookupInst m id = none) :
    connect m id = Except.ok
      (setInst (setInst m id
          { id := id, status := Status.disconnected, qrCode := none,
            qrCodeBase64 := none })
        id
        { id := id, status := Status.connecting, qrCode := none,
          qrCodeBase64 := none },
       { id := id, status := Status.connecting, qrCode := none,
         qrCodeBase64 := none },
       [ClientCall.initSession id]) := by
  unfold connect createInstance
  rw [h]
  simp

/-- The `ready` handler maps the registered handle to `connected` with both
QR fields cleared (and does not touch an unregistered id). -/
theorem lookupInst_handleNotif_ready (dbOk : Bool) (m : ManagerState)
    (id num name : String) :
    lookupInst (handleNotif dbOk m id (Notif.readyN num name)).1 id =
      (lookupInst m id).map (fun i =>
        { i with
            status := Status.connected
            qrCode := none
            qrCodeBase64 := none }) := by
  unfold handleNotif
  cases hlk : lookupInst m id with
  | none => simp [hlk]
  | some i =>
      cases dbOk <;>
        simpa using lookupInst_setInst_self m id
          { i with
              status := Status.connected
              qrCode := none
              qrCodeBase64 := none }

/-- The `auth_failure` handler only flips `status` to `disconnected`,
leaving the QR fields of the registered handle untouched. -/
theorem lookupInst_handleNotif_authFailure (dbOk : Bool) (m : ManagerState)
    (id msg : String) :
    lookupInst (handleNotif dbOk m id (Notif.authFailureN msg)).1 id =
      (lookupInst m id).map (fun i =>
        { i with status := Status.disconnected }) := by
  unfold handleNotif
  cases hlk : lookupInst m id with
  | none => simp [hlk]
  | some i =>
      rw [lookupInst_updateInstanceStatus]
      simpa using lookupInst_setInst_self m id
        { i with status := Status.disconnected }

/-- The `disconnected` handler only flips `status` to `disconnected`,
leaving the QR fields of the registered handle untouched. -/
theorem lookupInst_handleNotif_disconnected (dbOk : Bool) (m : ManagerState)
    (id r : String) :
    lookupInst (handleNotif dbOk m id (Notif.disconnectedN r)).1 id =
      (lookupInst m id).map (fun i =>
        { i with status := Status.disconnected }) := by
  unfold handleNotif
  cases hlk : lookupInst m id with
  | none => simp [hlk]
  | some i =>
      rw [lookupInst_updateInstanceStatus]
      simpa using lookupInst_setInst_self m id
        { i with status := Status.disconnected }

/-- The `disconnect` command (with the destroy call succeeding) only flips
`status` to `disconnected`, leaving the QR fields of the registered handle
untouched. -/
theorem lookupInst_disconnect_ok (dbOk : Bool) (m : ManagerState)
    (id : String) :
    lookupInst (disconnect true dbOk m id).1 id =
      (lookupInst m id).map (fun i =>
        { i with status := Status.disconnected }) := by
  unfold disconnect
  cases hlk : lookupInst m id with
  | none => simp [hlk]
  | some i =>
      show lookupInst (updateInstanceStatus dbOk
          (setInst m id { i with status := Status.disconnected })
          id DbStatus.DISCONNECTED) id
        = (some i).map (fun i => { i with status := Status.disconnected })
      rw [lookupInst_updateInstanceStatus]
      simpa using lookupInst_setInst_self m id
        { i with status := Status.disconnected }

/-- C1 (counterexample): starting from a registered instance that received
a QR challenge, each of the three transitions into `disconnected` — the
`auth_failure` notification, the `disconnected` notification, and the
`disconnect` command — ends with `status = disconnected` while both
QR-challenge fields are still populated: the claimed "populated iff
awaiting-scan" invariant and the claimed clearing on every transition into
`disconnected` are false on all three paths. -/
theorem qr_fields_survive_auth_failure :
    (getStatus (runNotifs true mA "a" [Notif.qrN "x", Notif.authFailureN "e"]) "a"
        = some Status.disconnected ∧
      getQRCode (runNotifs true mA "a" [Notif.qrN "x", Notif.authFailureN "e"]) "a"
        = (some "x", some (toDataURL "x"))) ∧
    (getStatus (runNotifs true mA "a" [Notif.qrN "x", Notif.disconnectedN "r"]) "a"
        = some Status.disconnected ∧
      getQRCode (runNotifs true mA "a" [Notif.qrN "x", Notif.disconnectedN "r"]) "a"
        = (some "x", some (toDataURL "x"))) ∧
    (getStatus (disconnect true true (runNotifs true mA "a" [Notif.qrN "x"]) "a").1 "a"
        = some Status.disconnected ∧
      getQRCode (disconnect true true (runNotifs true mA "a" [Notif.qrN "x"]) "a").1 "a"
        = (some "x", some (toDataURL "x"))) := by
  decide

/-- C1 (amended): the QR fields are populated whenever a registered handle
is in status `qr` (preserved over every notification sequence), and the
`ready` transition clears both; the transitions into `disconnected` — the
`auth_failure` notification, the `disconnected` notification, and the
`disconnect` command — flip the status but leave the QR fields exactly as
they were. -/
theorem qr_fields_set_only_while_awaiting_scan
    (dbOk : Bool) (m : ManagerState) (id : String) (ns : List Notif)
    (hm : qrInv m) :
    qrInv (runNotifs dbOk m id ns) ∧
    (∀ num name,
      getQRCode (handleNotif dbOk m id (Notif.readyN num name)).1 id
        = (none, none)) ∧
    (∀ msg,
      getQRCode (handleNotif dbOk m id (Notif.authFailureN msg)).1 id
        = getQRCode m id ∧
      getStatus (handleNotif dbOk m id (Notif.authFailureN msg)).1 id
        = (lookupInst m id).map (fun _ => Status.disconnected)) ∧
    (∀ r,
      getQRCode (handleNotif dbOk m id (Notif.disconnectedN r)).1 id
        = getQRCode m id ∧
      getStatus (handleNotif dbOk m id (Notif.disconnectedN r)).1 id
        = (lookupInst m id).map (fun _ => Status.disconnected)) ∧
    (getQRCode (disconnect true dbOk m id).1 id = getQRCode m id ∧
      getStatus (disconnect true dbOk m id).1 id
        = (lookupInst m id).map (fun _ => Status.disconnected)) := by
  refine ⟨qrInv_runNotifs dbOk m id ns hm, ?_, ?_, ?_, ?_⟩
  · intro num name
    unfold getQRCode
    rw [lookupInst_handleNotif_ready]
    cases lookupInst m id <;> simp
  · intro msg
    unfold getQRCode getStatus
    rw [lookupInst_handleNotif_authFailure]
    cases lookupInst m id <;> simp
  · intro r
    unfold getQRCode getStatus
    rw [lookupInst_handleNotif_disconnected]
    cases lookupInst m id <;> simp
  · unfold getQRCode getStatus
    rw [lookupInst_disconnect_ok]
    cases lookupInst m id <;> simp

/-- C1 witness: the amended statement evaluated on a concrete one-instance
state and the sequence `qr` then `ready`. -/
theorem qr_fields_set_only_while_awaiting_scan_witness :
    qrInv (runNotifs true mA "a" [Notif.qrN "x", Notif.readyN "5511" "bob"]) :=
  (qr_fields_set_only_while_awaiting_scan true mA "a"
    [Notif.qrN "x", Notif.readyN "5511" "bob"] (by decide)).1

/-- C2 (counterexample): a registered instance whose status is
`disconnected` — `sendText` does not fail, it delegates to the protocol
client, refuting "fails with a not-connected error whenever
`status != connected`". -/
theorem send_delegates_while_disconnected :
    getStatus mA "a" = some Status.disconnected ∧
    sendText mA "a" "+55 11 99999-9999" "hi"
      = Except.ok [ClientCall.sendMessage "a" "5511999999999@c.us" "hi"] := by
  exact ⟨by decide, by rfl⟩

/-- C2 (amended): the shared `getClient` guard of the send/query operations
checks only registry membership: the not-connected error is raised exactly
when the id has no registered handle, and the operation delegates to the
protocol client whenever a handle exists, whatever its status. -/
theorem sendText_guard_is_registration
    (m : ManagerState) (id toAddr text : String) :
    (lookupInst m id = none →
      sendText m id toAddr text =
        Except.error ("Instance " ++ id ++ " not connected")) ∧
    (∀ i, lookupInst m id = some i →
      sendText m id toAddr text =
        Except.ok [ClientCall.sendMessage i.id (formatNumber toAddr) text]) := by
  constructor
  · intro h
    simp [sendText, getClient, h]
  · intro i h
    simp [sendText, getClient, h]

/-- C2 witness: the amended statement applied to a registered (but
disconnected) handle. -/
theorem sendText_guard_is_registration_witness :
    sendText mA "a" "+55 11 99999-9999" "hi"
      = Except.ok [ClientCall.sendMessage instA.id
          (formatNumber "+55 11 99999-9999") "hi"] :=
  (sendText_guard_is_registration mA "a" "+55 11 99999-9999" "hi").2
    instA (by decide)

/-- C7: `connect` on a registered handle whose status is `connected`
returns the state and the handle unchanged and issues no `initialize`
call. -/
theorem connect_idempotent_on_connected
    (m : ManagerState) (id : String) (i : WAInstance)
    (h : lookupInst m id = some i) (hc : i.status = Status.connected) :
    connect m id = Except.ok (m, i, []) := by
  unfold connect
  rw [h]
  simp [hc]

/-- C7 witness: idempotent `connect` on a concrete connected instance. -/
theorem connect_idempotent_on_connected_witness :
    connect mConn "a" = Except.ok (mConn, instConn, []) :=
  connect_idempotent_on_connected mConn "a" instConn (by decide) (by decide)

/-- C8: for an id with no registered handle, `deleteInstance` completes
without error — registry untouched, on-disk session directory still
removed, no teardown call issued — while `disconnect` on the same id
returns the not-found error and changes nothing. -/
theorem delete_tolerant_disconnect_not_found
    (dOk dOk2 dbOk : Bool) (m : ManagerState) (id : String)
    (h : lookupInst m id = none) :
    (deleteInstance dOk m id).1.instances = m.instances ∧
    (deleteInstance dOk m id).1.sessionDirs
      = m.sessionDirs.filter (fun s => s != id) ∧
    (deleteInstance dOk m id).2 = [] ∧
    disconnect dOk2 dbOk m id
      = (m, Except.error ("Instance " ++ id ++ " not found")) := by
  refine ⟨instances_removeInst_of_absent h, rfl, ?_, ?_⟩
  · simp [deleteInstance, h]
  · simp [disconnect, h]

/-- C8 witness: delete/disconnect on the never-registered id `"b"`. -/
theorem delete_tolerant_disconnect_not_found_witness :
    disconnect true true mA "b"
      = (mA, Except.error ("Instance " ++ "b" ++ " not found")) :=
  (delete_tolerant_disconnect_not_found true true true mA "b" (by decide)).2.2.2

/-- C4 (counterexample): when the protocol client's `logout()` teardown
call fails, the `logout` command does not complete: it surfaces the error,
the session directory is still on disk and the instance is still
registered. -/
theorem logout_teardown_failure_aborts_cleanup :
    (logoutCmd false true true mA "a").2 = Except.error "logout failed" ∧
    (logoutCmd false true true mA "a").1.sessionDirs = ["a"] ∧
    lookupInst (logoutCmd false true true mA "a").1 "a" = some instA := by
  exact ⟨by rfl, by decide, by decide⟩

/-- C4 (amended): a failing teardown call makes `logout` fail with the
error propagated and no cleanup performed (state unchanged); it is the
`delete` command that swallows teardown failures, always removing the
session directory and the registry entry. -/
theorem teardown_failure_logout_vs_delete
    (lOk dOk dbOk dOk2 : Bool) (m : ManagerState) (id : String)
    (i : WAInstance) (hl : lookupInst m id = some i)
    (hfail : lOk = false ∨ dOk = false) :
    ((logoutCmd lOk dOk dbOk m id).1 = m ∧
      ∃ e, (logoutCmd lOk dOk dbOk m id).2 = Except.error e) ∧
    (lookupInst (deleteInstance dOk2 m id).1 id = none ∧
      (deleteInstance dOk2 m id).1.sessionDirs.contains id = false ∧
      (deleteInstance dOk2 m id).2 = [ClientCall.destroy id]) := by
  constructor
  · unfold logoutCmd
    rw [hl]
    rcases hfail with hf | hf
    · subst hf
      exact ⟨rfl, ⟨"logout failed", rfl⟩⟩
    · cases lOk
      · exact ⟨rfl, ⟨"logout failed", rfl⟩⟩
      · subst hf
        exact ⟨rfl, ⟨"destroy failed", rfl⟩⟩
  · refine ⟨lookupInst_removeInst _ id, contains_filter_ne m.sessionDirs id, ?_⟩
    simp [deleteInstance, hl]

/-- C4 witness: the amended statement evaluated with a failing
`client.logout()` on a concrete registered instance. -/
theorem teardown_failure_logout_vs_delete_witness :
    (logoutCmd false true true mA "a").1 = mA :=
  (teardown_failure_logout_vs_delete false true true true mA "a" instA
    (by decide) (Or.inl rfl)).1.1

/-- C5 (counterexample): a repository failure inside the `ready` handler is
not caught: the handler's rejection propagates (completion flag `false`,
no `ready` event published), although the in-memory status set before the
persistence call stays `connected`. -/
theorem ready_persistence_failure_propagates :
    (handleNotif false mQr "a" (Notif.readyN "5511" "bob")).2.2 = false ∧
    (handleNotif false mQr "a" (Notif.readyN "5511" "bob")).2.1 = [] ∧
    getStatus (handleNotif false mQr "a" (Notif.readyN "5511" "bob")).1 "a"
      = some Status.connected := by
  decide

/-- C5 (amended): the handlers going through `updateInstanceStatus`
(`qr`, `auth_failure`, `disconnected`) catch and log a repository failure
and run to completion; the `ready` handler persists through a direct,
unguarded repository call, so its failure propagates out of the handler —
in every case the in-memory mutations made before the call are kept. -/
theorem persistence_failure_contained_except_ready
    (m : ManagerState) (id : String) (i : WAInstance)
    (h : lookupInst m id = some i) :
    (∀ p, (handleNotif false m id (Notif.qrN p)).2.2 = true ∧
      (handleNotif false m id (Notif.qrN p)).1.errorLog.length
        = m.errorLog.length + 1) ∧
    (∀ msg, (handleNotif false m id (Notif.authFailureN msg)).2.2 = true ∧
      (handleNotif false m id (Notif.authFailureN msg)).1.errorLog.length
        = m.errorLog.length + 1) ∧
    (∀ r, (handleNotif false m id (Notif.disconnectedN r)).2.2 = true ∧
      (handleNotif false m id (Notif.disconnectedN r)).1.errorLog.length
        = m.errorLog.length + 1) ∧
    (∀ num name,
      (handleNotif false m id (Notif.readyN num name)).2.2 = false ∧
      getStatus (handleNotif false m id (Notif.readyN num name)).1 id
        = some Status.connected ∧
      getQRCode (handleNotif false m id (Notif.readyN num name)).1 id
        = (none, none)) := by
  refine ⟨?_, ?_, ?_, ?_⟩
  · intro p
    refine ⟨by simp [handleNotif, h], ?_⟩
    simp [handleNotif, h, updateInstanceStatus, setInst]
  · intro msg
    refine ⟨by simp [handleNotif, h], ?_⟩
    simp [handleNotif, h, updateInstanceStatus, setInst]
  · intro r
    refine ⟨by simp [handleNotif, h], ?_⟩
    simp [handleNotif, h, updateInstanceStatus, setInst]
  · intro num name
    refine ⟨by simp [handleNotif, h], ?_, ?_⟩
    · unfold getStatus
      rw [lookupInst_handleNotif_ready, h]
      rfl
    · unfold getQRCode
      rw [lookupInst_handleNotif_ready, h]
      rfl

/-- C5 witness: the amended statement evaluated on the concrete
awaiting-scan instance with the repository failing. -/
theorem persistence_failure_contained_except_ready_witness :
    (handleNotif false mQr "a" (Notif.qrN "y")).2.2 = true :=
  ((persistence_failure_contained_except_ready mQr "a" instQr (by decide)).1 "y").1

/-- C6: a successful `logout` removes the session directory, the registry
entry, and persists `DISCONNECTED`; a subsequent `connect` on the same id
behaves as first-time creation — a fresh `connecting` handle and a new
`initialize` call. -/
theorem logout_enables_fresh_connect
    (m : ManagerState) (id : String) (i : WAInstance)
    (h : lookupInst m id = some i) :
    (logoutCmd true true true m id).2
      = Except.ok [ClientCall.clientLogout id, ClientCall.destroy id] ∧
    lookupInst (logoutCmd true true true m id).1 id = none ∧
    (logoutCmd true true true m id).1.sessionDirs.contains id = false ∧
    dbStatusOf (logoutCmd true true true m id).1 id
      = some DbStatus.DISCONNECTED ∧
    (∃ m2, connect (logoutCmd true true true m id).1 id
      = Except.ok (m2,
          { id := id
            status := Status.connecting
            qrCode := none
            qrCodeBase64 := none },
          [ClientCall.initSession id])) := by
  have hred : logoutCmd true true true m id
      = (updateInstanceStatus true
          (removeInst
            { setInst m id { i with status := Status.disconnected } with
              sessionDirs :=
                (setInst m id
                    { i with status := Status.disconnected }).sessionDirs.filter
                  (fun s => s != id) }
            id)
          id DbStatus.DISCONNECTED,
         Except.ok [ClientCall.clientLogout id, ClientCall.destroy id]) := by
    unfold logoutCmd
    rw [h]
    rfl
  have hnone : lookupInst (logoutCmd true true true m id).1 id = none := by
    rw [hred, lookupInst_updateInstanceStatus]
    exact lookupInst_removeInst _ id
  refine ⟨by rw [hred], hnone, ?_, ?_, ⟨_, connect_fresh hnone⟩⟩
  · rw [hred, sessionDirs_updateInstanceStatus]
    exact contains_filter_ne _ id
  · rw [hred]
    exact dbStatusOf_updateInstanceStatus_self _ id _

/-- C6 witness: a successful logout on the concrete registered instance
leaves no registry entry. -/
theorem logout_enables_fresh_connect_witness :
    lookupInst (logoutCmd true true true mA "a").1 "a" = none :=
  (logout_enables_fresh_connect mA "a" instA (by decide)).2.1

end Whatsapp
